import Mathlib

/-!
Shallow embedding of the agent-orchestration core of the repository:
the message broker (`src/message_broker/broker.py`, `consumer.py`,
`publisher.py`), the agent manager (`src/orchestrator/agent_manager.py`),
the orchestrator brain handlers (`src/orchestrator/brain.py`) and the base
agent task handler (`src/agents/base_agent.py`).

Modelling conventions:
* Python `float` arithmetic is modelled exactly by `ℚ` (the numbers the
  algorithms manipulate are small and the properties proved do not depend
  on rounding).
* Python `dict`s (insertion ordered, unique keys) are modelled by
  association lists; updating an existing key rewrites it in place,
  inserting a fresh key appends at the end, matching dict iteration order.
* Python truthiness of an `Optional[str]` field (`if message.recipient_id:`)
  is false both for `None` and for the empty string; `optStrTruthy` models
  this exactly.
* `datetime` values are modelled as rational numbers of seconds.
-/

/-- Association-list lookup, first match wins — models Python `d[k]` /
`d.get(k)` on an insertion-ordered dict. -/
def alookup {α : Type} : List (String × α) → String → Option α
  | [], _ => none
  | p :: rest, k => if p.1 = k then some p.2 else alookup rest k

/-- Association-list update — models Python `d[k] = v`: rewrite the existing
entry in place when the key is present (dict keys are unique, so replacing
the first occurrence is exact), otherwise append at the end. -/
def aset {α : Type} : List (String × α) → String → α → List (String × α)
  | [], k, v => [(k, v)]
  | p :: rest, k, v =>
    if p.1 = k then (k, v) :: rest else p :: aset rest k v

/-- Python truthiness of an `Optional[str]`: `None` and `""` are falsy. -/
def optStrTruthy : Option String → Bool
  | none => false
  | some s => !(s == "")

/-- `startsList n h` — `n` is an initial segment of `h`. -/
def startsList : List Char → List Char → Bool
  | [], _ => true
  | _ :: _, [] => false
  | a :: as, b :: bs => a == b && startsList as bs

/-- `occursIn n h` — `n` occurs as a contiguous segment of `h`;
models Python `n in h` on strings (empty `n` occurs everywhere). -/
def occursIn (n : List Char) : List Char → Bool
  | [] => startsList n []
  | c :: rest => startsList n (c :: rest) || occursIn n rest

/-- Python substring test `needle in hay`. -/
def strOccursIn (needle hay : String) : Bool :=
  occursIn needle.data hay.data

/-- Python `str` of a list of strings: `['a', 'b']` (single quotes,
comma-space separators).  This is the rendering against which
`get_best_agent_for_task` runs its `task_type in str(task_handling)`
capability test. -/
def pyStrList (l : List String) : String :=
  "[" ++ String.intercalate ", " (l.map (fun s => "\x27" ++ s ++ "\x27")) ++ "]"

/-! ## Agent manager data model (`src/orchestrator/agent_manager.py`) -/

/-- One record of `AgentManager.registered_agents`, as created by
`register_agent` and mutated by `update_agent_status` / `complete_task`.
`capabilities` keeps only the `message_handling` list, the sole part of the
capability dict the manager ever reads. -/
structure AgentRec where
  type : String
  status : String
  capabilities : List String
  registeredAt : ℚ
  lastSeen : ℚ
  taskCount : ℕ
  errorCount : ℕ
  healthScore : ℚ
  deriving Repr, DecidableEq

/-- The mutable state of an `AgentManager`: the `registered_agents` dict,
the `agent_capabilities` type index and the `agent_workloads` dict.
Workloads are integers (`ℤ`) so that the clamping in `complete_task` is a
real property rather than an artifact of the carrier type. -/
structure ManagerState where
  registeredAgents : List (String × AgentRec)
  agentCapabilities : List (String × List String)
  agentWorkloads : List (String × ℤ)
  deriving Repr, DecidableEq

/-- `AgentManager.__init__`: all tracking dicts start empty. -/
def initialManagerState : ManagerState :=
  { registeredAgents := [], agentCapabilities := [], agentWorkloads := [] }

/-- The entries of a `status_update` payload's `details` dict that the code
reads: `tasks_completed`, `errors` (in `update_agent_status`) and
`memory_usage` (in `_calculate_health_score`); each may be absent. -/
structure StatusDetails where
  tasksCompleted : Option ℕ
  errors : Option ℕ
  memoryUsage : Option ℚ
  deriving Repr, DecidableEq

/-- A `status_update` payload as read by `update_agent_status`: the
optional `status` field and the `details` dict. -/
structure StatusData where
  status : Option String
  details : StatusDetails
  deriving Repr, DecidableEq

/-- `AgentManager._calculate_health_score`, with the record fields it reads
(`task_count`, `error_count`) and the elapsed `utcnow − last_seen` seconds
passed explicitly: start from 100, subtract the error-rate penalty when
there are tasks, the staleness penalty beyond 300 s, and the memory
penalty when the payload reports memory usage; clamp to [0, 100]. -/
def calculateHealthScore (taskCount errorCount : ℕ) (secondsSinceSeen : ℚ)
    (memoryUsage : Option ℚ) : ℚ :=
  let score : ℚ := 100
  let score := if taskCount > 0 then
      score - ((errorCount : ℚ) / (taskCount : ℚ)) * 50 else score
  let score := if secondsSinceSeen > 300 then
      score - min 40 (secondsSinceSeen / 60) else score
  let score := match memoryUsage with
    | some m => if m > 90 then score - 20 else if m > 80 then score - 10 else score
    | none => score
  max 0 (min 100 score)

/-! Spec-side formulation of the health score (the claim's words), used to
compare the sequential code against the closed-form description. -/

/-- Modelled from the spec wording: `error_rate = error_count/task_count`
(0 when there are no tasks). -/
def errorRate (taskCount errorCount : ℕ) : ℚ :=
  if taskCount = 0 then 0 else (errorCount : ℚ) / (taskCount : ℚ)

/-- Spec-side staleness penalty: `min(40, seconds/60)` beyond 300 s, else 0. -/
def stalenessPenalty (secondsSinceSeen : ℚ) : ℚ :=
  if secondsSinceSeen > 300 then min 40 (secondsSinceSeen / 60) else 0

/-- Spec-side memory penalty: 20 above 90 %, 10 above 80 %, else 0. -/
def memoryPenalty : Option ℚ → ℚ
  | some m => if m > 90 then 20 else if m > 80 then 10 else 0
  | none => 0

/-- Spec-side health score: `clamp (100 − error_rate·50 − staleness − memory)`
to [0, 100], written exactly as the specification describes it. -/
def healthScoreSpec (taskCount errorCount : ℕ) (secondsSinceSeen : ℚ)
    (memoryUsage : Option ℚ) : ℚ :=
  max 0 (min 100
    (100 - errorRate taskCount errorCount * 50
      - stalenessPenalty secondsSinceSeen
      - memoryPenalty memoryUsage))

lemma calculateHealthScore_eq (taskCount errorCount : ℕ)
    (secondsSinceSeen : ℚ) (memoryUsage : Option ℚ) :
    calculateHealthScore taskCount errorCount secondsSinceSeen memoryUsage =
      healthScoreSpec taskCount errorCount secondsSinceSeen memoryUsage := by
  simp only [calculateHealthScore, healthScoreSpec, errorRate,
    stalenessPenalty, memoryPenalty, gt_iff_lt, Nat.pos_iff_ne_zero, ne_eq]
  rcases memoryUsage with _ | m
  · by_cases h0 : taskCount = 0 <;> by_cases hs : 300 < secondsSinceSeen <;>
      simp [h0, hs]
  · by_cases h0 : taskCount = 0 <;> by_cases hs : 300 < secondsSinceSeen <;>
      by_cases h90 : 90 < m <;> by_cases h80 : 80 < m <;>
        simp [h0, hs, h90, h80]

/-- Claim C1: for every registry record (task count, error count, staleness,
optional reported memory usage), the recomputed health score equals
`clamp₍₀,₁₀₀₎ (100 − error_rate·50 − staleness_penalty − memory_penalty)`
with `error_rate = error_count/task_count` (0 when `task_count = 0`),
staleness penalty `min(40, s/60)` only when `s > 300`, and memory penalty
20 above 90 %, 10 above 80 %. -/
theorem health_score_matches_spec_formula (taskCount errorCount : ℕ)
    (secondsSinceSeen : ℚ) (memoryUsage : Option ℚ) :
    calculateHealthScore taskCount errorCount secondsSinceSeen memoryUsage =
      max 0 (min 100
        (100 - errorRate taskCount errorCount * 50
          - stalenessPenalty secondsSinceSeen
          - memoryPenalty memoryUsage)) :=
  calculateHealthScore_eq taskCount errorCount secondsSinceSeen memoryUsage

lemma stalenessPenalty_mono {s₁ s₂ : ℚ} (h : s₁ ≤ s₂) :
    stalenessPenalty s₁ ≤ stalenessPenalty s₂ := by
  by_cases h₁ : 300 < s₁ <;> by_cases h₂ : 300 < s₂ <;>
    simp [stalenessPenalty, h₁, h₂]
  · exact Or.inr (by gcongr)
  · exact absurd (lt_of_lt_of_le h₁ h) h₂
  · exact div_nonneg (by linarith) (by norm_num)

lemma clamp_mono {a b : ℚ} (h : a ≤ b) :
    max 0 (min 100 a) ≤ max 0 (min 100 b) :=
  max_le_max le_rfl (min_le_min le_rfl h)

/-- Claim C9: the health score is monotonically non-increasing in the error
rate (`error_count/task_count`, 0 when there are no tasks) with the other
inputs fixed, monotonically non-increasing in the staleness
`seconds_since_seen` with the other inputs fixed, and always lies in
[0, 100]. -/
theorem health_score_monotone_and_bounded :
    (∀ tc₁ ec₁ tc₂ ec₂ : ℕ, ∀ s : ℚ, ∀ mem : Option ℚ,
      errorRate tc₁ ec₁ ≤ errorRate tc₂ ec₂ →
        calculateHealthScore tc₂ ec₂ s mem ≤
          calculateHealthScore tc₁ ec₁ s mem) ∧
    (∀ tc ec : ℕ, ∀ s₁ s₂ : ℚ, ∀ mem : Option ℚ, s₁ ≤ s₂ →
      calculateHealthScore tc ec s₂ mem ≤ calculateHealthScore tc ec s₁ mem) ∧
    (∀ tc ec : ℕ, ∀ s : ℚ, ∀ mem : Option ℚ,
      0 ≤ calculateHealthScore tc ec s mem ∧
        calculateHealthScore tc ec s mem ≤ 100) := by
  refine ⟨?_, ?_, ?_⟩
  · intro tc₁ ec₁ tc₂ ec₂ s mem h
    rw [calculateHealthScore_eq, calculateHealthScore_eq]
    unfold healthScoreSpec
    apply clamp_mono
    have h50 : errorRate tc₁ ec₁ * 50 ≤ errorRate tc₂ ec₂ * 50 :=
      mul_le_mul_of_nonneg_right h (by norm_num)
    linarith
  · intro tc ec s₁ s₂ mem h
    rw [calculateHealthScore_eq, calculateHealthScore_eq]
    unfold healthScoreSpec
    apply clamp_mono
    have := stalenessPenalty_mono h
    linarith
  · intro tc ec s mem
    rw [calculateHealthScore_eq]
    unfold healthScoreSpec
    exact ⟨le_max_left 0 _, max_le (by norm_num) (min_le_left _ _)⟩

/-- Closed instance of `health_score_monotone_and_bounded`: each part
applied at concrete inputs, hypotheses discharged by computation. -/
theorem health_score_monotone_and_bounded_witness :
    (errorRate 10 1 ≤ errorRate 10 5 ∧
      calculateHealthScore 10 5 600 (some 85) ≤
        calculateHealthScore 10 1 600 (some 85)) ∧
    ((100 : ℚ) ≤ 400 ∧
      calculateHealthScore 4 1 400 none ≤ calculateHealthScore 4 1 100 none) ∧
    (0 ≤ calculateHealthScore 3 2 1000 (some 95) ∧
      calculateHealthScore 3 2 1000 (some 95) ≤ 100) :=
  ⟨⟨by norm_num [errorRate],
      health_score_monotone_and_bounded.1 10 1 10 5 600 (some 85)
        (by norm_num [errorRate])⟩,
    ⟨by norm_num,
      health_score_monotone_and_bounded.2.1 4 1 100 400 none (by norm_num)⟩,
    health_score_monotone_and_bounded.2.2 3 2 1000 (some 95)⟩

lemma alookup_aset {α : Type} (l : List (String × α)) (k k' : String)
    (v : α) :
    alookup (aset l k v) k' = if k' = k then some v else alookup l k' := by
  induction l with
  | nil =>
    by_cases h : k' = k
    · simp [alookup, aset, h]
    · simp [alookup, aset, h, Ne.symm h]
  | cons p rest ih =>
    by_cases hpk : p.1 = k
    · by_cases h : k' = k
      · simp [alookup, aset, hpk, h]
      · have h1 : ¬k = k' := fun hc => h hc.symm
        have h2 : ¬p.1 = k' := fun hc => h (hc.symm.trans hpk)
        simp [alookup, aset, hpk, h, h1, h2]
    · by_cases hpk' : p.1 = k'
      · have h : ¬k' = k := fun hc => hpk (hpk'.trans hc)
        simp [alookup, aset, hpk, hpk', h]
      · simp [alookup, aset, hpk, hpk', ih]

/-! ## Agent manager operations (`src/orchestrator/agent_manager.py`) -/

/-- `AgentManager.register_agent`: insert a fresh record (status from the
registration payload, defaulting to "unknown"; zeroed counters; health 100;
both timestamps at `now`), index the agent under its type in
`agent_capabilities`, and zero its workload. -/
def registerAgent (st : ManagerState) (now : ℚ) (agentId agentType : String)
    (caps : List String) (status : Option String) : ManagerState :=
  let newRec : AgentRec :=
    { type := agentType, status := status.getD "unknown",
      capabilities := caps, registeredAt := now, lastSeen := now,
      taskCount := 0, errorCount := 0, healthScore := 100 }
  let capIndex :=
    match alookup st.agentCapabilities agentType with
    | none => aset st.agentCapabilities agentType [agentId]
    | some ids =>
      if agentId ∈ ids then st.agentCapabilities
      else aset st.agentCapabilities agentType (ids ++ [agentId])
  { registeredAgents := aset st.registeredAgents agentId newRec,
    agentCapabilities := capIndex,
    agentWorkloads := aset st.agentWorkloads agentId 0 }

/-- `AgentManager.update_agent_status`: ignore unregistered senders;
otherwise refresh status (default "unknown") and `last_seen`, overwrite
`task_count` / `error_count` when the details carry them, then recompute
the health score.  `last_seen` has just been reset to `utcnow`, so the
staleness input of the recomputation is 0. -/
def updateAgentStatus (st : ManagerState) (now : ℚ) (agentId : String)
    (statusData : StatusData) : ManagerState :=
  match alookup st.registeredAgents agentId with
  | none => st
  | some a =>
    let a := { a with
      status := statusData.status.getD "unknown",
      lastSeen := now }
    let a := match statusData.details.tasksCompleted with
      | some n => { a with taskCount := n }
      | none => a
    let a := match statusData.details.errors with
      | some n => { a with errorCount := n }
      | none => a
    let a := { a with
      healthScore := calculateHealthScore a.taskCount a.errorCount 0
        statusData.details.memoryUsage }
    { st with registeredAgents := aset st.registeredAgents agentId a }

/-- `AgentManager.assign_task`: increment the agent's workload, starting at
1 when the agent has no workload entry.  The `task_id` argument is accepted
and ignored, as in the code. -/
def assignTask (st : ManagerState) (agentId _taskId : String) : ManagerState :=
  { st with agentWorkloads :=
      match alookup st.agentWorkloads agentId with
      | some w => aset st.agentWorkloads agentId (w + 1)
      | none => aset st.agentWorkloads agentId 1 }

/-- `AgentManager.complete_task`: decrement the agent's workload clamped at
0 when a workload entry exists; when the agent is registered, bump
`task_count`, and on failure bump `error_count` and drop health by 5
(clamped at 0), on success raise health by 1 (clamped at 100). -/
def completeTask (st : ManagerState) (agentId _taskId : String)
    (success : Bool) : ManagerState :=
  let workloads :=
    match alookup st.agentWorkloads agentId with
    | some w => aset st.agentWorkloads agentId (max 0 (w - 1))
    | none => st.agentWorkloads
  let regs :=
    match alookup st.registeredAgents agentId with
    | some a =>
      let a := { a with taskCount := a.taskCount + 1 }
      let a :=
        if success then
          { a with healthScore := min 100 (a.healthScore + 1) }
        else
          { a with
            errorCount := a.errorCount + 1,
            healthScore := max 0 (a.healthScore - 5) }
      aset st.registeredAgents agentId a
    | none => st.registeredAgents
  { st with registeredAgents := regs, agentWorkloads := workloads }

/-- The three `AgentManager` mutations claim C10 ranges over. -/
inductive ManagerOp where
  | register (agentId agentType : String) (caps : List String)
      (status : Option String)
  | assign (agentId taskId : String)
  | complete (agentId taskId : String) (success : Bool)

/-- Run one operation against the manager state. -/
def applyOp (now : ℚ) (st : ManagerState) : ManagerOp → ManagerState
  | .register agentId agentType caps status =>
    registerAgent st now agentId agentType caps status
  | .assign agentId taskId => assignTask st agentId taskId
  | .complete agentId taskId success => completeTask st agentId taskId success

/-- Run a sequence of operations, left to right. -/
def applyOps (now : ℚ) (st : ManagerState) (ops : List ManagerOp) :
    ManagerState :=
  ops.foldl (applyOp now) st

/-- Invariant: every stored workload counter is non-negative. -/
def workloadsNonneg (st : ManagerState) : Prop :=
  ∀ agentId w, alookup st.agentWorkloads agentId = some w → 0 ≤ w

lemma workloadsNonneg_applyOp (now : ℚ) (st : ManagerState) (op : ManagerOp)
    (h : workloadsNonneg st) : workloadsNonneg (applyOp now st op) := by
  cases op with
  | register agentId agentType caps status =>
    intro a w hw
    simp only [applyOp, registerAgent] at hw
    rw [alookup_aset] at hw
    split at hw
    · exact le_of_eq (Option.some.inj hw)
    · exact h a w hw
  | assign agentId taskId =>
    intro a w hw
    simp only [applyOp, assignTask] at hw
    rcases hw0 : alookup st.agentWorkloads agentId with _ | w₀ <;>
        rw [hw0] at hw <;> rw [alookup_aset] at hw <;> split at hw
    · have h1 : (1 : ℤ) = w := Option.some.inj hw
      omega
    · exact h a w hw
    · have hnn := h agentId w₀ hw0
      have hww : w₀ + 1 = w := Option.some.inj hw
      omega
    · exact h a w hw
  | complete agentId taskId success =>
    intro a w hw
    simp only [applyOp, completeTask] at hw
    rcases hw0 : alookup st.agentWorkloads agentId with _ | w₀ <;>
      rw [hw0] at hw
    · exact h a w hw
    · rw [alookup_aset] at hw
      split at hw
      · have hww : max 0 (w₀ - 1) = w := Option.some.inj hw
        rw [← hww]
        exact le_max_left 0 _
      · exact h a w hw

lemma workloadsNonneg_applyOps (now : ℚ) (ops : List ManagerOp) :
    ∀ st : ManagerState, workloadsNonneg st →
      workloadsNonneg (applyOps now st ops) := by
  induction ops with
  | nil => exact fun st h => h
  | cons op rest ih =>
    intro st h
    exact ih (applyOp now st op) (workloadsNonneg_applyOp now st op h)

/-- Claim C10: `assign_task` increments the workload (initialising to 1
when absent), `complete_task` decrements it clamped at 0, and along every
sequence of register/assign/complete operations from the initial state
every stored workload counter stays non-negative — completing more tasks
than were assigned never drives it below zero. -/
theorem workload_counter_never_negative :
    (∀ st : ManagerState, ∀ agentId taskId : String,
      alookup (assignTask st agentId taskId).agentWorkloads agentId =
        some ((alookup st.agentWorkloads agentId).getD 0 + 1)) ∧
    (∀ st : ManagerState, ∀ agentId taskId : String, ∀ ok : Bool, ∀ w : ℤ,
      alookup st.agentWorkloads agentId = some w →
        alookup (completeTask st agentId taskId ok).agentWorkloads agentId =
          some (max 0 (w - 1))) ∧
    (∀ now : ℚ, ∀ ops : List ManagerOp, ∀ agentId : String, ∀ w : ℤ,
      alookup (applyOps now initialManagerState ops).agentWorkloads agentId =
        some w → 0 ≤ w) := by
  refine ⟨?_, ?_, ?_⟩
  · intro st agentId taskId
    simp only [assignTask]
    rcases hw0 : alookup st.agentWorkloads agentId with _ | w₀ <;>
      simp [alookup_aset, hw0]
  · intro st agentId taskId ok w hw
    simp only [completeTask, hw]
    simp [alookup_aset]
  · intro now ops agentId w hw
    refine workloadsNonneg_applyOps now ops initialManagerState ?_ agentId w hw
    intro a w' ha
    simp [initialManagerState, alookup] at ha

/-- Closed instance of `workload_counter_never_negative`: an agent is
registered once, never assigned a task, and completes two tasks; its
workload ends at 0, and the theorem certifies it is non-negative. -/
theorem workload_counter_never_negative_witness :
    alookup (applyOps 0 initialManagerState
        [ManagerOp.register "agent-1" "monitoring" ["collect_metrics"]
            (some "running"),
          ManagerOp.complete "agent-1" "t1" true,
          ManagerOp.complete "agent-1" "t2" false]).agentWorkloads
      "agent-1" = some 0 ∧ (0 : ℤ) ≤ 0 :=
  ⟨by rfl,
    workload_counter_never_negative.2.2 0
      [ManagerOp.register "agent-1" "monitoring" ["collect_metrics"]
          (some "running"),
        ManagerOp.complete "agent-1" "t1" true,
        ManagerOp.complete "agent-1" "t2" false]
      "agent-1" 0 (by rfl)⟩

/-! ## Agent selection (`get_available_agents` / `get_best_agent_for_task`) -/

/-- The availability test of `AgentManager.get_available_agents`: status
"running", health score strictly above 50, and — when a type filter is
given — a matching agent type. -/
def isAvailable (a : AgentRec) (agentType : Option String) : Bool :=
  a.status == "running" && decide (a.healthScore > 50) &&
    match agentType with
    | none => true
    | some t => a.type == t

/-- `AgentManager.get_available_agents`: the ids of the available agents in
registry (insertion) order. -/
def getAvailableAgents (st : ManagerState) (agentType : Option String) :
    List String :=
  (st.registeredAgents.filter (fun p => isAvailable p.2 agentType)).map
    Prod.fst

/-- The capability factor of `get_best_agent_for_task`: 2.0 when
`task_type in str(task_handling)` — a Python substring test against the
string rendering of the `message_handling` capability list — else 1.0. -/
def capabilityScore (taskType : String) (taskHandling : List String) : ℚ :=
  if strOccursIn taskType (pyStrList taskHandling) then 2 else 1

/-- The composite score of `get_best_agent_for_task`:
`(health_score / 100) * capability_score * (1 / (workload + 1))`. -/
def agentScore (taskType : String) (a : AgentRec) (workload : ℤ) : ℚ :=
  (a.healthScore / 100) * capabilityScore taskType a.capabilities *
    (1 / ((workload : ℚ) + 1))

/-- The score `get_best_agent_for_task` computes for one available id:
the registry record is looked up in `registered_agents` (the lookup cannot
fail for ids produced by `get_available_agents`; 0 stands in for the
unreachable branch) and the workload defaults to 0 via
`agent_workloads.get(agent_id, 0)`. -/
def scoreOf (st : ManagerState) (taskType : String) (agentId : String) : ℚ :=
  match alookup st.registeredAgents agentId with
  | some a =>
    agentScore taskType a ((alookup st.agentWorkloads agentId).getD 0)
  | none => 0

/-- The element `agent_scores.sort(key=score, reverse=True)[0]` selects:
Python's sort is stable, so sorting descending by score and taking index 0
yields the earliest element attaining the maximal score, which is what
`pickBest` computes directly. -/
def pickBest : List (String × ℚ) → Option (String × ℚ)
  | [] => none
  | p :: rest =>
    match pickBest rest with
    | none => some p
    | some q => if p.2 < q.2 then some q else some p

/-- `AgentManager.get_best_agent_for_task`: `None` when no agent is
available, else the best-scoring available agent (ties to the earliest in
registry order). -/
def getBestAgentForTask (st : ManagerState) (taskType : String)
    (agentType : Option String) : Option String :=
  let available := getAvailableAgents st agentType
  if available.isEmpty then none
  else
    (pickBest (available.map (fun agentId =>
      (agentId, scoreOf st taskType agentId)))).map Prod.fst

lemma pickBest_isSome (p : String × ℚ) (rest : List (String × ℚ)) :
    (pickBest (p :: rest)).isSome := by
  simp only [pickBest]
  rcases pickBest rest with _ | q
  · simp
  · by_cases h : p.2 < q.2 <;> simp [h]

lemma pickBest_spec (l : List (String × ℚ)) :
    ∀ p : String × ℚ, pickBest l = some p →
      ∃ l₁ l₂, l = l₁ ++ p :: l₂ ∧ (∀ q ∈ l₁, q.2 < p.2) ∧
        (∀ q ∈ l₂, q.2 ≤ p.2) := by
  induction l with
  | nil => intro p hp; simp [pickBest] at hp
  | cons x rest ih =>
    intro p hp
    simp only [pickBest] at hp
    rcases hrest : pickBest rest with _ | q
    · rw [hrest] at hp
      cases rest with
      | nil =>
        replace hp : x = p := by simpa using hp
        exact ⟨[], [], by simp [hp], by simp, by simp⟩
      | cons y ys =>
        have := pickBest_isSome y ys
        rw [hrest] at this
        simp at this
    · rw [hrest] at hp
      replace hp : (if x.2 < q.2 then some q else some x) = some p := hp
      obtain ⟨l₁, l₂, hsplit, hlt, hle⟩ := ih q hrest
      by_cases hx : x.2 < q.2
      · rw [if_pos hx] at hp
        replace hp : q = p := Option.some.inj hp
        subst hp
        refine ⟨x :: l₁, l₂, by simp [hsplit], ?_, hle⟩
        intro r hr
        rcases List.mem_cons.mp hr with h | h
        · rw [h]; exact hx
        · exact hlt r h
      · rw [if_neg hx] at hp
        replace hp : x = p := Option.some.inj hp
        subst hp
        refine ⟨[], rest, rfl, by simp, ?_⟩
        intro r hr
        have hq : q.2 ≤ x.2 := le_of_not_lt hx
        rw [hsplit] at hr
        rcases List.mem_append.mp hr with h | h
        · exact le_trans (le_of_lt (hlt r h)) hq
        · rcases List.mem_cons.mp h with h | h
          · rw [h]; exact hq
          · exact le_trans (hle r h) hq

lemma mem_getAvailableAgents {st : ManagerState} {agentType : Option String}
    {a : String} (h : a ∈ getAvailableAgents st agentType) :
    ∃ r, (a, r) ∈ st.registeredAgents ∧ isAvailable r agentType = true := by
  simp only [getAvailableAgents, List.mem_map, List.mem_filter] at h
  obtain ⟨p, ⟨hp, hav⟩, rfl⟩ := h
  exact ⟨p.2, by simpa using hp, hav⟩

/-- Registry keys are unique — the defining invariant of a Python dict. -/
def keysNodup (st : ManagerState) : Prop :=
  (st.registeredAgents.map Prod.fst).Nodup

lemma alookup_eq_of_mem {α : Type} {l : List (String × α)}
    (hnd : (l.map Prod.fst).Nodup) {a : String} {r : α}
    (h : (a, r) ∈ l) : alookup l a = some r := by
  induction l with
  | nil => cases h
  | cons p rest ih =>
    have hnd0 : (p.1 :: rest.map Prod.fst).Nodup := by
      simpa only [List.map_cons] using hnd
    have hnd' := List.nodup_cons.mp hnd0
    rcases List.mem_cons.mp h with h' | h'
    · rw [← h']
      simp [alookup]
    · have hne : ¬p.1 = a := by
        intro hc
        apply hnd'.1
        rw [hc]
        exact List.mem_map_of_mem Prod.fst h'
      simp only [alookup, hne, if_false]
      exact ih hnd'.2 h'

/-- A monitoring registry record used by the end-to-end scenario of the
spec (type "monitoring", status "running", capability "collect_metrics"). -/
def monitorRec (health : ℚ) : AgentRec :=
  { type := "monitoring", status := "running",
    capabilities := ["collect_metrics"], registeredAt := 0, lastSeen := 0,
    taskCount := 0, errorCount := 0, healthScore := health }

/-- End-to-end scenario B of the spec: two monitoring agents, the first
with workload 3 and health 90, the second with workload 0 and health 95,
both declaring capability "collect_metrics". -/
def scenarioB : ManagerState :=
  { registeredAgents :=
      [("monitor-1", monitorRec 90), ("monitor-2", monitorRec 95)],
    agentCapabilities := [("monitoring", ["monitor-1", "monitor-2"])],
    agentWorkloads := [("monitor-1", 3), ("monitor-2", 0)] }

lemma capabilityScore_collect :
    capabilityScore "collect_metrics" ["collect_metrics"] = 2 := by
  have h : strOccursIn "collect_metrics" (pyStrList ["collect_metrics"]) =
      true := by rfl
  simp [capabilityScore, h]

lemma scenarioB_score1 :
    scoreOf scenarioB "collect_metrics" "monitor-1" = 9 / 20 := by
  have h := capabilityScore_collect
  norm_num [scoreOf, scenarioB, alookup, monitorRec, agentScore, h]

lemma scenarioB_score2 :
    scoreOf scenarioB "collect_metrics" "monitor-2" = 19 / 10 := by
  have h := capabilityScore_collect
  have hne : ("monitor-1" : String) ≠ "monitor-2" := by decide
  norm_num [scoreOf, scenarioB, alookup, monitorRec, agentScore, h, hne]

lemma scenarioB_available :
    getAvailableAgents scenarioB none = ["monitor-1", "monitor-2"] := by
  have h90 : decide ((90 : ℚ) > 50) = true := decide_eq_true (by norm_num)
  have h95 : decide ((95 : ℚ) > 50) = true := decide_eq_true (by norm_num)
  simp [getAvailableAgents, scenarioB, monitorRec, isAvailable, h90, h95]

lemma scenarioB_best :
    getBestAgentForTask scenarioB "collect_metrics" none =
      some "monitor-2" := by
  have hlt : (9 / 20 : ℚ) < 19 / 10 := by norm_num
  simp [getBestAgentForTask, scenarioB_available, pickBest, scenarioB_score1,
    scenarioB_score2, hlt]

lemma scenarioB_nodup : keysNodup scenarioB := by
  simp [keysNodup, scenarioB]

/-- Claim C2: whenever best-agent selection answers, the answer is one of
the available agents and is the earliest available agent attaining the
maximal score; every score is
`(health/100) × capability_factor × 1/(workload+1)` with capability factor
2.0 exactly when the task-type string appears in the declared
message-handling capability list (Python's `task_type in
str(task_handling)` substring test), else 1.0; and on scenario B —
monitoring agents (workload 3, health 90) and (workload 0, health 95),
both with capability "collect_metrics" — it selects the second. -/
theorem best_agent_selection_argmax :
    (∀ st : ManagerState, ∀ taskType : String, ∀ agentType : Option String,
      ∀ a : String,
      getBestAgentForTask st taskType agentType = some a →
        a ∈ getAvailableAgents st agentType ∧
        ∃ l₁ l₂,
          (getAvailableAgents st agentType).map
              (fun agentId => (agentId, scoreOf st taskType agentId)) =
            l₁ ++ (a, scoreOf st taskType a) :: l₂ ∧
          (∀ q ∈ l₁, q.2 < scoreOf st taskType a) ∧
          (∀ q ∈ l₂, q.2 ≤ scoreOf st taskType a)) ∧
    (∀ st : ManagerState, ∀ taskType agentId : String, ∀ r : AgentRec,
      alookup st.registeredAgents agentId = some r →
      scoreOf st taskType agentId =
        (r.healthScore / 100) *
          (if strOccursIn taskType (pyStrList r.capabilities) then 2 else 1) *
          (1 / ((((alookup st.agentWorkloads agentId).getD 0 : ℤ) : ℚ) + 1))) ∧
    getBestAgentForTask scenarioB "collect_metrics" none = some "monitor-2" := by
  refine ⟨?_, ?_, scenarioB_best⟩
  · intro st taskType agentType a h
    simp only [getBestAgentForTask] at h
    split at h
    · exact Option.noConfusion h
    · rcases hpb : pickBest ((getAvailableAgents st agentType).map
          (fun agentId => (agentId, scoreOf st taskType agentId))) with _ | p
      · rw [hpb] at h
        exact Option.noConfusion h
      · rw [hpb] at h
        replace h : p.1 = a := by simpa using h
        obtain ⟨l₁, l₂, hsplit, hlt, hle⟩ := pickBest_spec _ p hpb
        have hpmem : p ∈ (getAvailableAgents st agentType).map
            (fun agentId => (agentId, scoreOf st taskType agentId)) := by
          rw [hsplit]
          simp
        obtain ⟨agentId, hid, hide⟩ := List.mem_map.mp hpmem
        have hpa : p = (a, scoreOf st taskType a) := by
          rw [← hide] at h ⊢
          rw [← h]
        constructor
        · rw [← h, ← hide]
          exact hid
        · refine ⟨l₁, l₂, ?_, ?_, ?_⟩
          · rw [hsplit, hpa]
          · intro q hq
            have := hlt q hq
            rw [hpa] at this
            exact this
          · intro q hq
            have := hle q hq
            rw [hpa] at this
            exact this
  · intro st taskType agentId r hr
    simp [scoreOf, hr, agentScore, capabilityScore]

/-- Closed instance of `best_agent_selection_argmax` at scenario B:
"monitor-2" is among the available agents, and "monitor-1" gets the score
the formula prescribes. -/
theorem best_agent_selection_argmax_witness :
    ("monitor-2" ∈ getAvailableAgents scenarioB none) ∧
    scoreOf scenarioB "collect_metrics" "monitor-1" =
      ((monitorRec 90).healthScore / 100) *
        (if strOccursIn "collect_metrics"
            (pyStrList (monitorRec 90).capabilities) then 2 else 1) *
        (1 / ((((alookup scenarioB.agentWorkloads "monitor-1").getD 0 : ℤ) :
          ℚ) + 1)) :=
  ⟨(best_agent_selection_argmax.1 scenarioB "collect_metrics" none
      "monitor-2" scenarioB_best).1,
    best_agent_selection_argmax.2.1 scenarioB "collect_metrics" "monitor-1"
      (monitorRec 90) (by simp [scenarioB, alookup])⟩

/-- Claim C6: whenever best-agent selection returns an agent, that agent's
registry record has status "running" and health score strictly above 50. -/
theorem best_agent_is_running_and_healthy (st : ManagerState)
    (taskType : String) (agentType : Option String) (a : String)
    (hnd : keysNodup st)
    (h : getBestAgentForTask st taskType agentType = some a) :
    ∃ r, alookup st.registeredAgents a = some r ∧
      r.status = "running" ∧ r.healthScore > 50 := by
  simp only [getBestAgentForTask] at h
  split at h
  · exact Option.noConfusion h
  · rcases hpb : pickBest ((getAvailableAgents st agentType).map
        (fun agentId => (agentId, scoreOf st taskType agentId))) with _ | p
    · rw [hpb] at h
      exact Option.noConfusion h
    · rw [hpb] at h
      replace h : p.1 = a := by simpa using h
      obtain ⟨l₁, l₂, hsplit, _, _⟩ := pickBest_spec _ p hpb
      have hpmem : p ∈ (getAvailableAgents st agentType).map
          (fun agentId => (agentId, scoreOf st taskType agentId)) := by
        rw [hsplit]
        simp
      obtain ⟨agentId, hid, hide⟩ := List.mem_map.mp hpmem
      have hida : agentId = a := by
        rw [← h, ← hide]
      rw [hida] at hid
      obtain ⟨r, hmem, hav⟩ := mem_getAvailableAgents hid
      refine ⟨r, alookup_eq_of_mem hnd hmem, ?_, ?_⟩
      · simp only [isAvailable, Bool.and_eq_true, beq_iff_eq] at hav
        exact hav.1.1
      · simp only [isAvailable, Bool.and_eq_true, decide_eq_true_eq] at hav
        exact hav.1.2

/-- Closed instance of `best_agent_is_running_and_healthy` at scenario B. -/
theorem best_agent_is_running_and_healthy_witness :
    keysNodup scenarioB ∧
    ∃ r, alookup scenarioB.registeredAgents "monitor-2" = some r ∧
      r.status = "running" ∧ r.healthScore > 50 :=
  ⟨scenarioB_nodup,
    best_agent_is_running_and_healthy scenarioB "collect_metrics" none
      "monitor-2" scenarioB_nodup scenarioB_best⟩

/-! ## Message model and broker (`src/message_broker/`) -/

/-- The fields of `AgentMessage` (schemas.py) the modelled operations
read.  `sender_type`, `recipient_type` and `priority` carry the string
values of their `str`-enums; the payload is passed separately to the
handlers that inspect it. -/
structure AgentMessage where
  id : String
  messageType : String
  senderId : String
  senderType : String
  recipientId : Option String := none
  recipientType : Option String := none
  priority : String := "normal"
  correlationId : Option String := none
  replyTo : Option String := none
  timestamp : ℚ := 0
  expiresAt : Option ℚ := none
  deriving Repr, DecidableEq

/-- The default-exchange selection of `RabbitMQBroker.publish_message`
(the `exchange is None` branch): `if message.recipient_id:` ⇒ the
"direct" exchange with key `agent.<recipient_id>`;
`elif message.recipient_type:` ⇒ the "agents" topic exchange with key
`agent.<recipient_type>` (an `AgentType` member is always truthy, so this
test is plain presence); else the "broadcast" fanout exchange with the
empty key.  Returns (exchange, routing key). -/
def deriveRouting (m : AgentMessage) : String × String :=
  if optStrTruthy m.recipientId then
    ("direct", "agent." ++ m.recipientId.getD "")
  else
    match m.recipientType with
    | some t => ("agents", "agent." ++ t)
    | none => ("broadcast", "")

/-- A message whose `recipient_id` is set — but to the empty string. -/
def emptyRecipientMsg : AgentMessage :=
  { id := "m-0", messageType := "status_update", senderId := "agent-7",
    senderType := "monitoring", recipientId := some "" }

/-- Counterexample to claim C3 as stated: `emptyRecipientMsg` has
`recipient_id` set, yet routing derivation lands on the fanout broadcast
exchange with the empty key rather than the direct exchange — Python's
`if message.recipient_id:` treats the empty string like `None`. -/
theorem routing_empty_recipient_counterexample :
    emptyRecipientMsg.recipientId = some "" ∧
    deriveRouting emptyRecipientMsg = ("broadcast", "") ∧
    deriveRouting emptyRecipientMsg ≠ ("direct", "agent." ++ "") := by
  decide

/-- Claim C3 (amended): with no explicit exchange, routing is the
three-case total function of the message: a set and non-empty
`recipient_id` ⇒ direct exchange, key `agent.<recipient_id>`; otherwise a
set `recipient_type` ⇒ topic exchange "agents", key
`agent.<recipient_type>`; otherwise fanout "broadcast", key "". -/
theorem routing_derivation_total (m : AgentMessage) :
    (∀ rid, m.recipientId = some rid → rid ≠ "" →
      deriveRouting m = ("direct", "agent." ++ rid)) ∧
    ((m.recipientId = none ∨ m.recipientId = some "") →
      ∀ t, m.recipientType = some t →
        deriveRouting m = ("agents", "agent." ++ t)) ∧
    ((m.recipientId = none ∨ m.recipientId = some "") →
      m.recipientType = none → deriveRouting m = ("broadcast", "")) := by
  refine ⟨?_, ?_, ?_⟩
  · intro rid hr hne
    simp [deriveRouting, optStrTruthy, hr, hne, beq_iff_eq]
  · intro hr t ht
    rcases hr with hr | hr <;>
      simp [deriveRouting, optStrTruthy, hr, ht, beq_iff_eq]
  · intro hr ht
    rcases hr with hr | hr <;>
      simp [deriveRouting, optStrTruthy, hr, ht, beq_iff_eq]

/-- Closed instance of `routing_derivation_total`: one message per case. -/
theorem routing_derivation_total_witness :
    deriveRouting
        { id := "m-1",
          messageType := "task_request",
          senderId := "orch",
          senderType := "orchestrator",
          recipientId := some "agent-9" } =
      ("direct", "agent." ++ "agent-9") ∧
    deriveRouting
        { id := "m-2",
          messageType := "task_request",
          senderId := "orch",
          senderType := "orchestrator",
          recipientType := some "monitoring" } =
      ("agents", "agent." ++ "monitoring") ∧
    deriveRouting
        { id := "m-3",
          messageType := "alert",
          senderId := "orch",
          senderType := "orchestrator" } =
      ("broadcast", "") :=
  ⟨(routing_derivation_total _).1 "agent-9" rfl (by decide),
    (routing_derivation_total _).2.1 (Or.inl rfl) "monitoring" rfl,
    (routing_derivation_total _).2.2 (Or.inl rfl) rfl⟩

/-- `RabbitMQBroker._get_priority_value`: the dict
`{"low": 1, "normal": 5, "high": 8, "critical": 10}` probed with
`.get(priority, 5)`; over distinct keys this equals the chain below. -/
def getPriorityValue (priority : String) : ℕ :=
  if priority = "low" then 1
  else if priority = "normal" then 5
  else if priority = "high" then 8
  else if priority = "critical" then 10
  else 5

/-- Claim C7: the priority-to-numeric mapping is total: low ↦ 1,
normal ↦ 5, high ↦ 8, critical ↦ 10, and every other value ↦ 5. -/
theorem priority_mapping_total :
    getPriorityValue "low" = 1 ∧ getPriorityValue "normal" = 5 ∧
    getPriorityValue "high" = 8 ∧ getPriorityValue "critical" = 10 ∧
    ∀ p : String, p ≠ "low" → p ≠ "high" → p ≠ "critical" →
      getPriorityValue p = 5 := by
  refine ⟨by decide, by decide, by decide, by decide, ?_⟩
  intro p h1 h2 h3
  by_cases hn : p = "normal" <;> simp [getPriorityValue, h1, h2, h3, hn]

/-- Closed instance of `priority_mapping_total` at an unknown priority. -/
theorem priority_mapping_total_witness : getPriorityValue "urgent" = 5 :=
  priority_mapping_total.2.2.2.2 "urgent" (by decide) (by decide) (by decide)

/-- Python `int()` on a rational: truncation toward zero. -/
def pyInt (q : ℚ) : ℤ := if 0 ≤ q then ⌊q⌋ else ⌈q⌉

/-- The `expiration` AMQP property computed by `publish_message`:
`str(int((message.expires_at.timestamp() − message.timestamp.timestamp())
* 1000))` when `expires_at` is set, else absent.  Modelled as the integer
the string renders. -/
def publishExpirationMs (m : AgentMessage) : Option ℤ :=
  match m.expiresAt with
  | some e => some (pyInt ((e - m.timestamp) * 1000))
  | none => none

/-- Claim C8: with `expires_at` set the published expiration is exactly the
truncated millisecond difference `(expires_at − timestamp) × 1000` — no
clamping or rejection; with `expires_at` one millisecond before the
timestamp the value is −1, which is non-positive; with `expires_at` unset
no expiration is attached. -/
theorem expiration_unclamped_milliseconds :
    (∀ m : AgentMessage, ∀ e : ℚ, m.expiresAt = some e →
      publishExpirationMs m = some (pyInt ((e - m.timestamp) * 1000))) ∧
    (∀ m : AgentMessage, m.expiresAt = none →
      publishExpirationMs m = none) ∧
    (∀ ts : ℚ,
      publishExpirationMs
          { id := "m",
            messageType := "task_request",
            senderId := "a",
            senderType := "monitoring",
            timestamp := ts,
            expiresAt := some (ts - 1 / 1000) } =
        some (-1) ∧ (-1 : ℤ) ≤ 0) := by
  refine ⟨?_, ?_, ?_⟩
  · intro m e he
    simp [publishExpirationMs, he]
  · intro m he
    simp [publishExpirationMs, he]
  · intro ts
    refine ⟨?_, by norm_num⟩
    have harg : (ts - 1 / 1000 - ts) * 1000 = (-1 : ℚ) := by ring
    have hceil : pyInt (-1 : ℚ) = -1 := by
      have h1 : ((-1 : ℤ) : ℚ) = (-1 : ℚ) := by norm_num
      rw [pyInt, if_neg (by norm_num : ¬(0 : ℚ) ≤ -1), ← h1,
        Int.ceil_intCast]
    simp only [publishExpirationMs]
    rw [harg, hceil]

/-- Closed instance of `expiration_unclamped_milliseconds`: a message with
a one-minute TTL and a message without `expires_at`. -/
theorem expiration_unclamped_milliseconds_witness :
    publishExpirationMs
        { id := "m-10",
          messageType := "task_request",
          senderId := "a",
          senderType := "monitoring",
          timestamp := 5,
          expiresAt := some 65 } =
      some (pyInt ((65 - 5) * 1000)) ∧
    publishExpirationMs
        { id := "m-11",
          messageType := "alert",
          senderId := "a",
          senderType := "monitoring" } = none :=
  ⟨expiration_unclamped_milliseconds.1 _ 65 rfl,
    expiration_unclamped_milliseconds.2.1 _ rfl⟩

/-! ## Consumer dispatch and task responses
(`src/message_broker/consumer.py`, `publisher.py`,
`src/agents/base_agent.py`) -/

/-- The `task_response` message built by `MessagePublisher.send_response`,
restricted to the fields the claims inspect: its payload
(`status` / `result` / `error_message`), the copied `correlation_id` and
the recipient.  The fresh uuid and sender identity are elided. -/
structure TaskResponse where
  correlationId : Option String
  status : String
  result : Option String
  errorMessage : Option String
  recipientId : Option String
  deriving Repr, DecidableEq

/-- `MessagePublisher.send_response(correlation_id, status, result,
error_message, recipient_id)`. -/
def sendResponse (correlationId : Option String) (status : String)
    (result : Option String) (errorMessage : Option String)
    (recipientId : Option String) : TaskResponse :=
  { correlationId := correlationId, status := status, result := result,
    errorMessage := errorMessage, recipientId := recipientId }

/-- `MessageConsumer._process_message`: run the handler for the message's
type; the handler outcome is the list of responses it sent (`.ok`) or the
text of the exception it raised (`.error` — the two handlers this claim
cites send nothing before raising).  On an exception, exactly when the
triggering message carried truthy `reply_to` and `correlation_id`, send
one error response with `error_message = str(e)` back to the sender. -/
def consumerProcessMessage (m : AgentMessage)
    (handler : AgentMessage → Except String (List TaskResponse)) :
    List TaskResponse :=
  match handler m with
  | .ok rs => rs
  | .error e =>
    if optStrTruthy m.replyTo && optStrTruthy m.correlationId then
      [sendResponse m.correlationId "error" none (some e) (some m.senderId)]
    else []

/-- `BaseAgent._handle_task_request`: run `_execute_task` (outcome given
as `Except`: a result, or the text of the raised exception); reply
status "success" with the result, or catch the exception and reply status
"error" with `str(e)` — in either case unconditionally and exactly once,
with the request's `correlation_id`.  The `task_count` / `error_count`
bumps touch agent-local counters and no response, so they are elided. -/
def baseAgentHandleTaskRequest (m : AgentMessage)
    (execOutcome : Except String String) :
    Except String (List TaskResponse) :=
  .ok [match execOutcome with
    | .ok r => sendResponse m.correlationId "success" (some r) none
        (some m.senderId)
    | .error e => sendResponse m.correlationId "error" none (some e)
        (some m.senderId)]

/-- A well-formed task request carrying both `reply_to` and
`correlation_id`. -/
def taskRequestMsg : AgentMessage :=
  { id := "req-1",
    messageType := "task_request",
    senderId := "orchestrator-1",
    senderType := "orchestrator",
    recipientId := some "agent-1",
    correlationId := some "corr-1",
    replyTo := some "agent.orchestrator-1" }

/-- Counterexample to claim C4 as stated: a task whose execution raises an
exception with empty text (Python `str(e)` of, e.g., `RuntimeError()`)
yields exactly one error response — but its `error_message` is the empty
string, not a non-empty one. -/
theorem task_error_empty_message_counterexample :
    consumerProcessMessage taskRequestMsg
        (fun m => baseAgentHandleTaskRequest m (.error "")) =
      [{ correlationId := some "corr-1",
         status := "error",
         result := none,
         errorMessage := some "",
         recipientId := some "orchestrator-1" }] ∧
    (some "" : Option String).map String.length = some 0 := by
  decide

/-- Claim C4 (amended): for a task request carrying truthy `reply_to` and
`correlation_id` whose handling raises an exception with text `e`, exactly
one `task_response` goes back — with status "error", the originating
correlation id, and `error_message` equal to `e` (which is non-empty
whenever the exception text is) — on both the consumer's generic dispatch
path (the handler raised to the dispatcher) and the base agent's task
handler (which catches its own exception); never two responses. -/
theorem task_error_yields_single_response (m : AgentMessage) (e : String)
    (hr : optStrTruthy m.replyTo = true)
    (hc : optStrTruthy m.correlationId = true) :
    consumerProcessMessage m (fun _ => .error e) =
      [sendResponse m.correlationId "error" none (some e)
        (some m.senderId)] ∧
    consumerProcessMessage m
        (fun msg => baseAgentHandleTaskRequest msg (.error e)) =
      [sendResponse m.correlationId "error" none (some e)
        (some m.senderId)] := by
  constructor
  · simp [consumerProcessMessage, hr, hc]
  · simp [consumerProcessMessage, baseAgentHandleTaskRequest]

/-- Closed instance of `task_error_yields_single_response` at a concrete
request and the exception text "disk full". -/
theorem task_error_yields_single_response_witness :
    consumerProcessMessage taskRequestMsg (fun _ => .error "disk full") =
      [sendResponse (some "corr-1") "error" none (some "disk full")
        (some "orchestrator-1")] ∧
    consumerProcessMessage taskRequestMsg
        (fun msg => baseAgentHandleTaskRequest msg (.error "disk full")) =
      [sendResponse (some "corr-1") "error" none (some "disk full")
        (some "orchestrator-1")] :=
  task_error_yields_single_response taskRequestMsg "disk full"
    (by decide) (by decide)

/-! ## Orchestrator brain handlers (`src/orchestrator/brain.py`) -/

/-- One record of the brain-local `active_agents` dict: created by
`_handle_agent_registration` and refreshed by `_handle_status_update` /
`_handle_metrics_data`.  The `details` and `metrics` entries are absent
until first written; empty defaults stand in for the missing keys. -/
structure BrainAgentInfo where
  type : String
  capabilities : List String
  status : String
  lastSeen : ℚ
  details : StatusDetails
  metrics : List (String × ℚ)
  deriving Repr, DecidableEq

/-- The orchestrator brain state the cited handlers touch: its own
`active_agents` dict and the composed `AgentManager`. -/
structure BrainState where
  activeAgents : List (String × BrainAgentInfo)
  manager : ManagerState
  deriving Repr, DecidableEq

/-- `OrchestratorBrain._handle_status_update`: when the sender is in the
brain-local `active_agents` dict, overwrite that record's status (default
"unknown"), `last_seen` and `details` — and nothing else; then call
`self._analyze_agent_status(...)`, a method `OrchestratorBrain` never
defines, so the handler raises `AttributeError` after the dict update.
The composed `AgentManager` (`update_agent_status`, health recomputation)
is never invoked. -/
def brainHandleStatusUpdate (st : BrainState) (now : ℚ) (senderId : String)
    (payload : StatusData) : BrainState × Except String Unit :=
  match alookup st.activeAgents senderId with
  | some info =>
    let info := { info with
      status := payload.status.getD "unknown",
      lastSeen := now,
      details := payload.details }
    ({ st with activeAgents := aset st.activeAgents senderId info },
      Except.error "AttributeError: _analyze_agent_status")
  | none => (st, Except.ok ())

/-- `OrchestratorBrain._handle_metrics_data`: store the metrics payload in
the brain-local record when the sender is known, then call
`self._analyze_system_metrics(...)`, a method `OrchestratorBrain` never
defines — `AttributeError`, so `processed_data_count` is never reached.
The composed `AgentManager` is never invoked. -/
def brainHandleMetricsData (st : BrainState) (senderId : String)
    (metricsPayload : List (String × ℚ)) : BrainState × Except String Unit :=
  let st' :=
    match alookup st.activeAgents senderId with
    | some info =>
      let info' := { info with metrics := metricsPayload }
      { st with activeAgents := aset st.activeAgents senderId info' }
    | none => st
  (st', Except.error "AttributeError: _analyze_system_metrics")

/-- The brain-local record of the registered agent in the failing input. -/
def failingBrainInfo : BrainAgentInfo :=
  { type := "monitoring",
    capabilities := ["collect_metrics"],
    status := "running",
    lastSeen := 0,
    details := { tasksCompleted := none, errors := none,
                 memoryUsage := none },
    metrics := [] }

/-- The Agent Manager registry of the failing input: "agent-1" registered
with zeroed counters and health 100. -/
def failingManager : ManagerState :=
  { registeredAgents := [("agent-1", monitorRec 100)],
    agentCapabilities := [("monitoring", ["agent-1"])],
    agentWorkloads := [("agent-1", 0)] }

/-- The failing input's brain state: "agent-1" known to both the brain and
the composed Agent Manager. -/
def failingBrainState : BrainState :=
  { activeAgents := [("agent-1", failingBrainInfo)],
    manager := failingManager }

/-- The failing input's `status_update` payload: status "running",
7 completed tasks, 2 errors. -/
def failingStatusPayload : StatusData :=
  { status := some "running",
    details := { tasksCompleted := some 7, errors := some 2,
                 memoryUsage := none } }

/-- Claim C5 (violated by the code): neither `_handle_status_update` nor
`_handle_metrics_data` ever reaches the composed Agent Manager — for every
brain state the manager sub-state is unchanged, the metrics handler always
raises `AttributeError` on the undefined `_analyze_system_metrics`, and at
the concrete failing input — registered "agent-1" reporting 7 completed
tasks and 2 errors — the registry record keeps `task_count = 0` instead
of the refreshed 7, while the status handler raises `AttributeError` on
the undefined `_analyze_agent_status`. -/
theorem status_update_never_reaches_agent_manager :
    (∀ st : BrainState, ∀ now : ℚ, ∀ senderId : String, ∀ p : StatusData,
      (brainHandleStatusUpdate st now senderId p).1.manager = st.manager) ∧
    (∀ st : BrainState, ∀ senderId : String, ∀ mp : List (String × ℚ),
      (brainHandleMetricsData st senderId mp).1.manager = st.manager ∧
      (brainHandleMetricsData st senderId mp).2 =
        Except.error "AttributeError: _analyze_system_metrics") ∧
    ((brainHandleStatusUpdate failingBrainState 1000 "agent-1"
        failingStatusPayload).1.manager = failingManager ∧
      (alookup (brainHandleStatusUpdate failingBrainState 1000 "agent-1"
          failingStatusPayload).1.manager.registeredAgents "agent-1").map
        AgentRec.taskCount = some 0 ∧
      (brainHandleStatusUpdate failingBrainState 1000 "agent-1"
          failingStatusPayload).2 =
        Except.error "AttributeError: _analyze_agent_status") := by
  refine ⟨?_, ?_, ?_, ?_, ?_⟩
  · intro st now senderId p
    cases h : alookup st.activeAgents senderId <;>
      simp [brainHandleStatusUpdate, h]
  · intro st senderId mp
    constructor
    · cases h : alookup st.activeAgents senderId <;>
        simp [brainHandleMetricsData, h]
    · rfl
  · rfl
  · rfl
  · rfl
